import Mathlib

/-!
Verification development for the rule-based triage and differential-ranking
engine of the triage-tool repository (src/backend/triage_engine.py and
src/backend/reasoning_engine.py), as a shallow embedding in Lean 4.

Modelling conventions:
* Python strings are Lean `String`s; a missing dictionary field is the empty
  string (the source coerces missing fields with `.get(key, "")` / `str(...)`).
* Python floats produced by `_to_float` are modelled exactly, as decimal
  rationals `num / den` with `den` a power of ten (`PyFloat`); the thresholds
  compared against are integers, so comparisons are integer inequalities.
* Python sets that the source converts to sorted lists are modelled as
  `sortedSet` (deduplicate, then lexicographic insertion sort); Python's
  stable `list.sort` is modelled by the stable insertion sort `sortB`.
* Regular expressions are modelled by direct scanners with the exact
  match/search and backtracking semantics of the two patterns used.
-/

/-! ### Character classes (ASCII fragment of Python `\s`, `\d`) -/

def isPySpace (c : Char) : Bool :=
  c == ' ' || c == '\t' || c == '\n' || c == '\r' || c == '\x0b' || c == '\x0c'

def digitsVal (l : List Char) : Nat :=
  l.foldl (fun a c => 10 * a + (c.toNat - 48)) 0

/-! ### `_to_float`: first match of `-?\d+(\.\d+)?`, value kept exactly -/

structure PyFloat where
  num : Int
  den : Nat
  deriving DecidableEq

def PyFloat.geInt (v : PyFloat) (t : Int) : Bool :=
  decide (t * (v.den : Int) ≤ v.num)

def PyFloat.ltInt (v : PyFloat) (t : Int) : Bool :=
  decide (v.num < t * (v.den : Int))

/-- Value of a match of `\d+(\.\d+)?` whose text starts at `cs`
(`cs` is assumed to start with a digit). -/
def numFrom (cs : List Char) : PyFloat :=
  let ds := cs.takeWhile Char.isDigit
  match cs.drop ds.length with
  | '.' :: r2 =>
    let fs := r2.takeWhile Char.isDigit
    if fs.length = 0 then { num := (digitsVal ds : Int), den := 1 }
    else { num := (digitsVal ds : Int) * (10 ^ fs.length : Nat) + (digitsVal fs : Int),
           den := 10 ^ fs.length }
  | _ => { num := (digitsVal ds : Int), den := 1 }

/-- `re.search(r"-?\d+(\.\d+)?", s)`: leftmost match, scanning positions
left to right. -/
def scanNum : List Char → Option PyFloat
  | [] => none
  | c :: cs =>
    if c.isDigit then some (numFrom (c :: cs))
    else if c = '-' then
      match cs with
      | [] => none
      | d :: _ => if d.isDigit then some { numFrom cs with num := -(numFrom cs).num }
                  else scanNum cs
    else scanNum cs

/-- `_to_float` of triage_engine.py / reasoning_engine.py on a string value. -/
def toFloat (s : String) : Option PyFloat := scanNum s.data

/-! ### `_parse_bp`: the blood-pressure patterns of both engines -/

/-- Attempt of the pattern `(\d{2,3})\s*/\s*(\d{2,3})` anchored at the head
of `cs` (with the backtracking semantics of the Python regex: a run of four
or more digits can never serve as the first group). -/
def matchBpCore (cs : List Char) : Option (Nat × Nat) :=
  let d1 := cs.takeWhile Char.isDigit
  if d1.length = 2 ∨ d1.length = 3 then
    match (cs.drop d1.length).dropWhile isPySpace with
    | '/' :: r2 =>
      let d2 := (r2.dropWhile isPySpace).takeWhile Char.isDigit
      if 2 ≤ d2.length then some (digitsVal d1, digitsVal (d2.take 3)) else none
    | _ => none
  else none

/-- `re.search` of the pattern: leftmost position at which it matches. -/
def searchBp : List Char → Option (Nat × Nat)
  | [] => none
  | c :: cs =>
    match matchBpCore (c :: cs) with
    | some r => some r
    | none => searchBp cs

/-- `_parse_bp` of triage_engine.py: `re.match(r"\s*(\d{2,3})\s*/\s*(\d{2,3})\s*", bp)`,
returning only `int(match.group(1))`; `None` for falsy (empty) input or no
match at the start of the string. -/
def parseBp (bp : String) : Option Nat :=
  if bp = "" then none
  else (matchBpCore (bp.data.dropWhile isPySpace)).map Prod.fst

/-- `_parse_bp` of reasoning_engine.py: `re.search(r"(\d{2,3})\s*/\s*(\d{2,3})", bp)`,
returning both groups, or `(None, None)` when the pattern occurs nowhere. -/
def parseBpPair (bp : String) : Option Nat × Option Nat :=
  match searchBp bp.data with
  | some (a, b) => (some a, some b)
  | none => (none, none)

/-! ### Patient case and `_case_text` -/

structure PatientData where
  chief_complaint : String
  symptoms : String
  lab_values : String
  comorbidities : String
  temperature : String
  pulse : String
  blood_pressure : String
  respiratory_rate : String
  oxygen_saturation : String
  deriving DecidableEq

/-- `" ".join([chief_complaint, symptoms, lab_values, comorbidities]).lower()`. -/
def caseText (pd : PatientData) : String :=
  ⟨(pd.chief_complaint ++ " " ++ pd.symptoms ++ " " ++ pd.lab_values ++ " "
      ++ pd.comorbidities).data.map Char.toLower⟩

/-- `pat` occurs at the head of `text` (helper for Python's `in`). -/
def startsList : List Char → List Char → Bool
  | [], _ => true
  | _ :: _, [] => false
  | p :: ps, c :: cs => p == c && startsList ps cs

/-- Python's substring test `pat in text` on character lists. -/
def containsSub (pat : List Char) : List Char → Bool
  | [] => pat.isEmpty
  | c :: cs => startsList pat (c :: cs) || containsSub pat cs

/-- `word in text` for strings. -/
def containsKw (text kw : String) : Bool := containsSub kw.data text.data

/-- `any(word in text for word in kws)`. -/
def anyKw (text : String) (kws : List String) : Bool := kws.any (containsKw text)

/-! ### Case features, as computed inside `_infer_required_resources` -/

structure Features where
  fever : Bool
  hypotension : Bool
  severeHypoxia : Bool
  moderateHypoxia : Bool
  markedTachycardia : Bool
  tachycardia : Bool
  tachypnea : Bool
  respiratoryPattern : Bool
  giPattern : Bool
  neuroPattern : Bool
  chestPainPattern : Bool
  malariaPattern : Bool
  deriving DecidableEq

def extractFeatures (pd : PatientData) : Features where
  fever := match toFloat pd.temperature with
    | none => false
    | some v => v.geInt 38
  hypotension := match parseBp pd.blood_pressure with
    | none => false
    | some s => decide (s < 90)
  severeHypoxia := match toFloat pd.oxygen_saturation with
    | none => false
    | some v => v.ltInt 90
  moderateHypoxia := match toFloat pd.oxygen_saturation with
    | none => false
    | some v => v.ltInt 92
  markedTachycardia := match toFloat pd.pulse with
    | none => false
    | some v => v.geInt 130
  tachycardia := match toFloat pd.pulse with
    | none => false
    | some v => v.geInt 110
  tachypnea := match toFloat pd.respiratory_rate with
    | none => false
    | some v => v.geInt 24
  respiratoryPattern := anyKw (caseText pd) ["cough", "breath", "dyspnea", "wheeze", "chest"]
  giPattern := anyKw (caseText pd) ["vomit", "diarrhea", "diarrhoea", "abdominal", "dehydration"]
  neuroPattern := anyKw (caseText pd) ["confus", "seizure", "unconscious", "stroke", "weakness"]
  chestPainPattern := anyKw (caseText pd) ["chest pain", "tightness", "pressure chest"]
  malariaPattern := anyKw (caseText pd) ["chills", "rigors", "malaria"]

/-! ### Stable insertion sort (model of Python's stable `list.sort` /
`sorted`) and sorted sets -/

def insertB {α : Type} (le : α → α → Bool) (a : α) : List α → List α
  | [] => [a]
  | b :: l => if le a b then a :: b :: l else b :: insertB le a l

def sortB {α : Type} (le : α → α → Bool) : List α → List α
  | [] => []
  | a :: l => insertB le a (sortB le l)

/-- Lexicographic comparison of character lists by code point, as Python
compares strings. -/
def lexLe : List Char → List Char → Bool
  | [], _ => true
  | _ :: _, [] => false
  | a :: as, b :: bs => if a < b then true else if b < a then false else lexLe as bs

def strLeb (a b : String) : Bool := lexLe a.data b.data

/-- `sorted(pythonSet)`: duplicates collapse, result in ascending
lexicographic order. -/
def sortedSet (l : List String) : List String := sortB strLeb l.dedup

/-! ### `_infer_required_resources`: the rule table -/

def flagsOf (f : Features) : List String :=
  (if f.hypotension then ["Shock physiology (SBP < 90)"] else [])
  ++ (if f.severeHypoxia then ["Severe hypoxia (SpO2 < 90)"]
      else if f.moderateHypoxia then ["Possible hypoxic respiratory compromise (SpO2 < 92)"]
      else [])
  ++ (if f.fever && f.hypotension then ["Possible sepsis pattern (high fever + hypotension)"]
      else if f.fever && (f.tachycardia || f.tachypnea) then
        ["Possible systemic infection pattern (fever + physiologic stress)"]
      else [])
  ++ (if f.markedTachycardia then ["Marked tachycardia"]
      else if f.tachycardia then ["Tachycardia"]
      else [])
  ++ (if f.tachypnea then ["Tachypnea"] else [])
  ++ (if f.respiratoryPattern then ["Respiratory symptom cluster"] else [])
  ++ (if f.giPattern then ["Gastrointestinal fluid-loss pattern"] else [])
  ++ (if f.neuroPattern then ["Neurologic danger pattern"] else [])
  ++ (if f.chestPainPattern then ["Chest pain/cardiac risk pattern"] else [])
  ++ (if f.malariaPattern && f.fever then ["Fever with malaria-compatible pattern"] else [])

def addsReq (f : Features) : List String :=
  (if f.hypotension then ["iv_fluids", "start_iv", "manage_shock", "monitor_vitals"] else [])
  ++ (if f.severeHypoxia then ["oxygen", "manage_airway", "monitor_vitals"]
      else if f.moderateHypoxia then ["oxygen", "monitor_vitals"]
      else [])
  ++ (if f.fever && f.hypotension then ["iv_fluids", "start_iv", "manage_shock", "blood_glucose"]
      else if f.fever && (f.tachycardia || f.tachypnea) then ["monitor_vitals"]
      else [])
  ++ (if f.markedTachycardia then ["monitor_vitals", "blood_glucose"]
      else if f.tachycardia then ["monitor_vitals"]
      else [])
  ++ (if f.tachypnea then ["monitor_vitals"] else [])
  ++ (if f.respiratoryPattern then ["monitor_vitals"] else [])
  ++ (if f.giPattern then ["iv_fluids", "start_iv", "monitor_vitals"] else [])
  ++ (if f.neuroPattern then ["manage_airway", "monitor_vitals", "blood_glucose"] else [])
  ++ (if f.chestPainPattern then ["monitor_vitals", "oxygen"] else [])

def addsDiag (f : Features) : List String :=
  (if f.fever && f.hypotension then ["blood_glucose"]
   else if f.fever && (f.tachycardia || f.tachypnea) then ["blood_glucose"]
   else [])
  ++ (if f.markedTachycardia then ["blood_glucose"] else [])
  ++ (if f.respiratoryPattern then ["xray"] else [])
  ++ (if f.giPattern then ["blood_glucose"] else [])
  ++ (if f.neuroPattern then ["blood_glucose"] else [])
  ++ (if f.chestPainPattern then ["ecg"] else [])
  ++ (if f.malariaPattern && f.fever then ["malaria_test"] else [])

def stabAdds (f : Features) : List String :=
  (if f.hypotension then ["Establish IV access and start fluid resuscitation"] else [])
  ++ (if f.severeHypoxia then ["Administer supplemental oxygen and monitor saturation"]
      else if f.moderateHypoxia then ["Start oxygen if available and reassess saturation trend"]
      else [])
  ++ (if f.fever && f.hypotension then ["Begin sepsis stabilization bundle per local protocol"]
      else if f.fever && (f.tachycardia || f.tachypnea) then
        ["Reassess perfusion, hydration, and progression every 15-30 minutes"]
      else [])
  ++ (if f.markedTachycardia then ["Continuous monitoring and focused reassessment"]
      else if f.tachycardia then ["Repeat vitals after initial supportive care"]
      else [])
  ++ (if f.tachypnea then ["Assess work of breathing and escalation threshold"] else [])
  ++ (if f.respiratoryPattern then ["Position upright and give bronchodilator if wheeze is present"] else [])
  ++ (if f.giPattern then ["Begin oral/IV rehydration based on severity"] else [])
  ++ (if f.neuroPattern then ["Check glucose immediately and protect airway if sensorium is reduced"] else [])
  ++ (if f.chestPainPattern then ["Obtain ECG urgently and monitor for deterioration"] else [])
  ++ (if f.malariaPattern && f.fever then ["Perform malaria testing early where endemic risk exists"] else [])

/-- The `high_risk` flag: set by hypotension, severe hypoxia,
fever-with-hypotension, and the neurologic pattern. -/
def highRisk (f : Features) : Bool :=
  f.hypotension || f.severeHypoxia || (f.fever && f.hypotension) || f.neuroPattern

/-- The accumulated `risk_points`, with the elif precedence of the source. -/
def riskPoints (f : Features) : Nat :=
  (if f.severeHypoxia then 0 else if f.moderateHypoxia then 2 else 0)
  + (if f.fever && f.hypotension then 0
     else if f.fever && (f.tachycardia || f.tachypnea) then 2
     else 0)
  + (if f.markedTachycardia then 2 else if f.tachycardia then 1 else 0)
  + (if f.tachypnea then 1 else 0)
  + (if f.respiratoryPattern then 1 else 0)
  + (if f.giPattern then 1 else 0)
  + (if f.chestPainPattern then 2 else 0)
  + (if f.malariaPattern && f.fever then 1 else 0)

def riskLevelOf (f : Features) : String :=
  if highRisk f then "High" else if 3 ≤ riskPoints f then "Moderate" else "Low"

/-- Disjunction of every rule guard of `_infer_required_resources`
(a flag is appended exactly when one of these fires). -/
def anyRuleFires (f : Features) : Bool :=
  f.hypotension || f.severeHypoxia || f.moderateHypoxia
  || (f.fever && f.hypotension) || (f.fever && (f.tachycardia || f.tachypnea))
  || f.markedTachycardia || f.tachycardia || f.tachypnea
  || f.respiratoryPattern || f.giPattern || f.neuroPattern || f.chestPainPattern
  || (f.malariaPattern && f.fever)

structure Assessment where
  risk_level : String
  flags : List String
  required_resources : List String
  stabilization_steps : List String
  shock_or_hypoxia : Bool
  neurologic_danger : Bool
  chest_pain_risk : Bool
  deriving DecidableEq

def assessFeatures (f : Features) : Assessment where
  risk_level := riskLevelOf f
  flags := flagsOf f
  required_resources := sortedSet (addsReq f ++ addsDiag f)
  stabilization_steps :=
    sortedSet (stabAdds f
      ++ (if (flagsOf f).isEmpty then ["Continue routine monitoring and symptomatic care"] else []))
  shock_or_hypoxia := f.hypotension || f.severeHypoxia
  neurologic_danger := f.neuroPattern
  chest_pain_risk := f.chestPainPattern

/-- `_infer_required_resources` of triage_engine.py. -/
def inferRequiredResources (pd : PatientData) : Assessment :=
  assessFeatures (extractFeatures pd)

/-! ### `_rank_top_differentials` -/

structure Candidate where
  diagnosis : String
  score : Nat
  reason : String
  deriving DecidableEq

structure RankedDifferential where
  diagnosis : String
  reasoning : String
  deriving DecidableEq

/-- The ten-candidate catalog after all `bump` calls: the score of each
candidate is the sum of its triggered rule weights, its reason the string of
the first rule that triggered for it (bumps run in source order). -/
def rankCandidates (pd : PatientData) (assessment : Assessment) : List Candidate :=
  let text := caseText pd
  let temp := toFloat pd.temperature
  let pulse := toFloat pd.pulse
  let spo2 := toFloat pd.oxygen_saturation
  let systolic := parseBp pd.blood_pressure
  let fever := match temp with | none => false | some v => v.geInt 38
  let hypotension := match systolic with | none => false | some s => decide (s < 90)
  let hypoxia := match spo2 with | none => false | some v => v.ltInt 92
  let tachy := match pulse with | none => false | some v => v.geInt 110
  let respiratory := anyKw text ["cough", "dyspnea", "breath", "sputum", "wheeze"]
  let chest_pain := containsKw text "chest pain" || containsKw text "pressure chest"
    || containsKw text "tightness"
  let gi := anyKw text ["vomit", "diarrhea", "diarrhoea", "abdominal"]
  let neuro := anyKw text ["confus", "seizure", "unconscious", "stroke", "weakness"]
  let urinary := anyKw text ["dysuria", "urine", "flank"]
  let malaria_pattern := anyKw text ["rigor", "chills", "malaria"]
  let edema := anyKw text ["orthopnea", "pnd", "edema", "swelling legs"]
  let glucose_kw := containsKw text "glucose" || containsKw text "sugar"
  let highFlag := assessment.risk_level = "High"
  [ { diagnosis := "Community-acquired pneumonia / lower respiratory tract infection",
      score := (if respiratory then 3 else 0) + (if fever then 2 else 0)
        + (if hypoxia then 2 else 0),
      reason :=
        if respiratory then "Respiratory symptom cluster is present."
        else if fever then "Fever increases likelihood of infection."
        else if hypoxia then "Low oxygen saturation supports pulmonary process."
        else "" },
    { diagnosis := "Acute asthma/COPD exacerbation",
      score := if respiratory then 2 else 0,
      reason :=
        if respiratory then "Breathlessness/wheeze pattern suggests obstructive airway disease."
        else "" },
    { diagnosis := "Sepsis with hemodynamic compromise",
      score := (if fever then 2 else 0) + (if hypotension then 4 else 0)
        + (if tachy then 1 else 0) + (if highFlag then 1 else 0),
      reason :=
        if fever then "Fever with systemic illness supports sepsis consideration."
        else if hypotension then "Hypotension indicates potential circulatory failure."
        else if tachy then "Tachycardia supports systemic stress response."
        else if highFlag then "High-risk physiology increases concern for systemic critical illness."
        else "" },
    { diagnosis := "Acute coronary syndrome / cardiac ischemia",
      score := if chest_pain then 4 else 0,
      reason := if chest_pain then "Chest pain/tightness requires cardiac rule-out." else "" },
    { diagnosis := "Pulmonary edema / heart failure exacerbation",
      score := (if hypoxia then 2 else 0) + (if chest_pain then 2 else 0)
        + (if edema then 3 else 0),
      reason :=
        if hypoxia then "Hypoxia may indicate cardiopulmonary fluid overload."
        else if chest_pain then "Cardiorespiratory symptoms overlap with heart failure states."
        else if edema then "Fluid overload symptoms support heart failure."
        else "" },
    { diagnosis := "Acute gastroenteritis with dehydration",
      score := (if hypotension then 2 else 0) + (if tachy then 1 else 0)
        + (if gi then 4 else 0),
      reason :=
        if hypotension then "Hypotension can result from severe volume depletion."
        else if tachy then "Tachycardia can indicate dehydration."
        else if gi then "GI losses strongly suggest gastroenteritis/dehydration."
        else "" },
    { diagnosis := "Hypoglycemia or glucose-related metabolic emergency",
      score := if glucose_kw then 3 else 0,
      reason := if glucose_kw then "Glucose-related concern appears in case data." else "" },
    { diagnosis := "Acute neurologic emergency (stroke/seizure/CNS event)",
      score := if neuro then 5 else 0,
      reason := if neuro then "Neurologic danger terms are present." else "" },
    { diagnosis := "Malaria or other febrile parasitic illness",
      score := (if fever then 1 else 0) + (if malaria_pattern && fever then 4 else 0),
      reason :=
        if fever then "Fever compatible with tropical febrile illness."
        else if malaria_pattern && fever then
          "Fever with rigors/chills raises malaria risk where relevant."
        else "" },
    { diagnosis := "Urinary sepsis / pyelonephritis",
      score := if urinary && fever then 4 else 0,
      reason :=
        if urinary && fever then "Urinary symptoms with fever suggest urinary source infection."
        else "" } ]

def fallbackCandidate : Candidate :=
  { diagnosis := "Undifferentiated acute illness (needs serial reassessment)",
    score := 1,
    reason := "Limited discriminating features in submitted data." }

/-- `ranked = [c for c in candidates if c score > 0]`, with the fallback entry
when nothing scored. -/
def rankedOf (pd : PatientData) (a : Assessment) : List Candidate :=
  let r := (rankCandidates pd a).filter (fun c => decide (0 < c.score))
  if r.isEmpty then [fallbackCandidate] else r

/-- Comparison used by `ranked.sort(key=..., reverse=True)`: descending by
score, stable on ties. -/
def candLe (x y : Candidate) : Bool := decide (y.score ≤ x.score)

def sortedRankedOf (pd : PatientData) (a : Assessment) : List Candidate :=
  sortB candLe (rankedOf pd a)

/-- `ranked[:5]`. -/
def rankTop (pd : PatientData) (a : Assessment) : List Candidate :=
  (sortedRankedOf pd a).take 5

/-- `_rank_top_differentials`: the final projected list. -/
def rankTopDifferentials (pd : PatientData) (a : Assessment) : List RankedDifferential :=
  (rankTop pd a).map (fun c =>
    { diagnosis := c.diagnosis,
      reasoning := if c.reason = "" then "Supported by available symptom-vital pattern."
        else c.reason })

/-! ### Centre model and `_build_available_set` -/

structure Infrastructure where
  oxygen : Bool
  suction : Bool
  iv_fluids : Bool
  nebulizer : Bool
  power_backup : Bool
  deriving DecidableEq

structure Diagnostics where
  blood_glucose : Bool
  hemoglobin : Bool
  urine_test : Bool
  malaria_test : Bool
  ecg : Bool
  xray : Bool
  ultrasound : Bool
  deriving DecidableEq

structure Competencies where
  start_iv : Bool
  give_im : Bool
  manage_airway : Bool
  intubate : Bool
  manage_shock : Bool
  monitor_vitals : Bool
  deriving DecidableEq

structure Medication where
  drug_name : String
  in_stock : Bool
  deriving DecidableEq

structure Centre where
  infrastructure : Option Infrastructure
  diagnostics : Option Diagnostics
  competencies : Option Competencies
  medications : List Medication
  deriving DecidableEq

/-- `drug_name.strip().lower()`. -/
def stripLower (s : String) : String :=
  ⟨(((s.data.dropWhile isPySpace).reverse.dropWhile isPySpace).reverse).map Char.toLower⟩

/-- The equipment/diagnostic/competency part of `_build_available_set`. -/
def basePart (i : Option Infrastructure) (d : Option Diagnostics)
    (k : Option Competencies) : List String :=
  (match i with
   | none => []
   | some x =>
     (if x.oxygen then ["oxygen"] else []) ++ (if x.suction then ["suction"] else [])
     ++ (if x.iv_fluids then ["iv_fluids"] else []) ++ (if x.nebulizer then ["nebulizer"] else [])
     ++ (if x.power_backup then ["power_backup"] else []))
  ++ (match d with
      | none => []
      | some x =>
        (if x.blood_glucose then ["blood_glucose"] else [])
        ++ (if x.hemoglobin then ["hemoglobin"] else [])
        ++ (if x.urine_test then ["urine_test"] else [])
        ++ (if x.malaria_test then ["malaria_test"] else [])
        ++ (if x.ecg then ["ecg"] else []) ++ (if x.xray then ["xray"] else [])
        ++ (if x.ultrasound then ["ultrasound"] else []))
  ++ (match k with
      | none => []
      | some x =>
        (if x.start_iv then ["start_iv"] else []) ++ (if x.give_im then ["give_im"] else [])
        ++ (if x.manage_airway then ["manage_airway"] else [])
        ++ (if x.intubate then ["intubate"] else [])
        ++ (if x.manage_shock then ["manage_shock"] else [])
        ++ (if x.monitor_vitals then ["monitor_vitals"] else []))

/-- The in-stock medications, namespaced with the `med:` marker. -/
def medPart (ms : List Medication) : List String :=
  ms.filterMap (fun m => if m.in_stock then some ("med:" ++ stripLower m.drug_name) else none)

/-- `_build_available_set` (membership-faithful list model of the Python set). -/
def buildAvailableSet (c : Centre) : List String :=
  basePart c.infrastructure c.diagnostics c.competencies ++ medPart c.medications

/-! ### `run_resource_aware_triage` -/

def missingOf (req avail : List String) : List String :=
  req.filter (fun r => decide (r ∉ avail))

def stabilityVerdict (req missing : List String) : String :=
  if req = [] then "Yes"
  else if missing = [] then "Yes"
  else if missing.length < req.length then "Partial"
  else "No"

def referVerdict (a : Assessment) (missing : List String) : String :=
  if a.risk_level = "High"
      ∧ (missing ≠ [] ∨ a.chest_pain_risk = true ∨ a.neurologic_danger = true) then "Yes"
  else "No"

/-- `_broad_management_paths`. -/
def broadManagementPaths (a : Assessment) (missing : List String)
    (stability refer : String) : List String × List String :=
  let manage_here :=
    ["Reassess ABC (airway, breathing, circulation) and repeat vitals at defined intervals.",
     "Treat the leading syndrome while monitoring for deterioration.",
     "Document response to each intervention and update disposition if risk changes."]
    ++ (if a.risk_level = "Moderate" ∨ a.risk_level = "High" then
          ["Use high-frequency monitoring and senior escalation thresholds."]
        else [])
  let before0 := a.stabilization_steps
    ++ ["Communicate referral early and confirm receiving facility acceptance.",
        "Send transfer note with vitals trend, interventions, and pending concerns.",
        "Escort with staff capable of airway/circulatory support if unstable."]
  let before1 :=
    if missing ≠ [] then
      ("Missing local requirements: " ++ String.intercalate ", " missing) :: before0
    else before0
  let before2 :=
    if stability = "Yes" ∧ refer = "No" then
      ["Referral not immediately required if patient remains stable after reassessment."]
    else before1
  (manage_here, before2)

structure TriageResult where
  clinical_risk_level : String
  stabilization_possible : String
  required_resources : List String
  missing_resources : List String
  top_differentials : List RankedDifferential
  feasibility_flag : String
  flag_explanation : String
  refer_immediately : String
  steps_before_referral : List String
  manage_if_admitted : List String
  manage_before_referral : List String
  derived_flags : List String
  deriving DecidableEq

/-- `treatable_here = stability == "Yes" and refer_immediately == "No"`. -/
def treatableHere (a : Assessment) (missing : List String) : Prop :=
  stabilityVerdict a.required_resources missing = "Yes" ∧ referVerdict a missing = "No"

instance (a : Assessment) (missing : List String) : Decidable (treatableHere a missing) :=
  instDecidableAnd

def feasibilityFlag (a : Assessment) (missing : List String) : String :=
  if treatableHere a missing then "Green Flag" else "Red Flag"

def flagExplanation (a : Assessment) (missing : List String) : String :=
  if treatableHere a missing then
    "Case can be treated here based on current resource and competency cross-verification."
  else
    "Case exceeds current resource/competency capacity; referral pathway required."

def stepsBeforeReferral (a : Assessment) (missing : List String) : List String :=
  a.stabilization_steps
    ++ (if missing ≠ [] then
          ["Arrange early referral while continuing achievable stabilization",
           "Send transfer note with vitals and treatments already given"]
        else [])

/-- Assembly of the result dictionary from the assessment and the
missing-resource list (everything downstream of `available_resources`
depends on it only through `missing`). -/
def buildResult (pd : PatientData) (a : Assessment) (missing : List String) : TriageResult :=
  { clinical_risk_level := a.risk_level
    stabilization_possible := stabilityVerdict a.required_resources missing
    required_resources := a.required_resources
    missing_resources := missing
    top_differentials := rankTopDifferentials pd a
    feasibility_flag := feasibilityFlag a missing
    flag_explanation := flagExplanation a missing
    refer_immediately := referVerdict a missing
    steps_before_referral := stepsBeforeReferral a missing
    manage_if_admitted :=
      (broadManagementPaths a missing (stabilityVerdict a.required_resources missing)
        (referVerdict a missing)).1
    manage_before_referral :=
      (broadManagementPaths a missing (stabilityVerdict a.required_resources missing)
        (referVerdict a missing)).2
    derived_flags := a.flags }

def missingResources (pd : PatientData) (c : Centre) : List String :=
  missingOf (inferRequiredResources pd).required_resources (buildAvailableSet c)

/-- `run_resource_aware_triage` of triage_engine.py. -/
def runResourceAwareTriage (pd : PatientData) (c : Centre) : TriageResult :=
  buildResult pd (inferRequiredResources pd) (missingResources pd c)

/-! ### Concrete cases used by witnesses and counterexamples -/

def pdEmpty : PatientData :=
  { chief_complaint := "", symptoms := "", lab_values := "", comorbidities := "",
    temperature := "", pulse := "", blood_pressure := "", respiratory_rate := "",
    oxygen_saturation := "" }

def pdShock : PatientData := { pdEmpty with blood_pressure := "80/50" }

def pdNoVitals : PatientData :=
  { pdEmpty with
    temperature := "pending"
    pulse := "err"
    blood_pressure := "not recorded"
    respiratory_rate := "tbd"
    oxygen_saturation := "low" }

def centreNone : Centre :=
  { infrastructure := none, diagnostics := none, competencies := none, medications := [] }

/-- The fixed vocabulary from which required resources are drawn. -/
def requiredVocab : List String :=
  ["blood_glucose", "ecg", "iv_fluids", "malaria_test", "manage_airway",
   "manage_shock", "monitor_vitals", "oxygen", "start_iv", "xray"]

/-- Risk-level ordering Low < Moderate < High. -/
def riskRank (s : String) : Nat :=
  if s = "High" then 2 else if s = "Moderate" then 1 else 0

/-! ### Lemmas about the stable insertion sort -/

theorem mem_insertB {α : Type} (le : α → α → Bool) (a x : α) (l : List α) :
    x ∈ insertB le a l ↔ x = a ∨ x ∈ l := by
  induction l with
  | nil => simp [insertB]
  | cons b t ih =>
    by_cases h : le a b = true
    · simp [insertB, h, List.mem_cons]
    · simp [insertB, h, List.mem_cons, ih]
      tauto

theorem mem_sortB {α : Type} (le : α → α → Bool) (x : α) (l : List α) :
    x ∈ sortB le l ↔ x ∈ l := by
  induction l with
  | nil => simp [sortB]
  | cons a t ih => simp [sortB, mem_insertB, ih, List.mem_cons]

theorem pairwise_insertB {α : Type} {le : α → α → Bool}
    (htot : ∀ x y, (le x y || le y x) = true)
    (htrans : ∀ x y z, le x y = true → le y z = true → le x z = true)
    (a : α) {l : List α} (h : l.Pairwise (fun x y => le x y = true)) :
    (insertB le a l).Pairwise (fun x y => le x y = true) := by
  induction l with
  | nil => simp [insertB]
  | cons b t ih =>
    rcases List.pairwise_cons.mp h with ⟨hb, ht⟩
    by_cases hab : le a b = true
    · rw [insertB, if_pos hab]
      refine List.pairwise_cons.mpr ⟨?_, h⟩
      intro y hy
      rcases List.mem_cons.mp hy with rfl | hy
      · exact hab
      · exact htrans a b y hab (hb y hy)
    · rw [insertB, if_neg hab]
      refine List.pairwise_cons.mpr ⟨?_, ih ht⟩
      intro y hy
      rcases (mem_insertB le a y t).mp hy with hya | hy
      · rw [hya]
        have h2 := htot a b
        cases h3 : le b a
        · rw [h3] at h2
          simp at h2
          exact absurd h2 hab
        · rfl
      · exact hb y hy

theorem pairwise_sortB {α : Type} {le : α → α → Bool}
    (htot : ∀ x y, (le x y || le y x) = true)
    (htrans : ∀ x y z, le x y = true → le y z = true → le x z = true)
    (l : List α) : (sortB le l).Pairwise (fun x y => le x y = true) := by
  induction l with
  | nil => simp [sortB]
  | cons a t ih => exact pairwise_insertB htot htrans a ih

theorem filter_insertB_pos {α : Type} (le : α → α → Bool) (p : α → Bool) {a : α}
    (ha : p a = true) (hkey : ∀ b, p b = true → le a b = true) (l : List α) :
    (insertB le a l).filter p = a :: l.filter p := by
  induction l with
  | nil => simp [insertB, ha]
  | cons b t ih =>
    by_cases hab : le a b = true
    · rw [insertB, if_pos hab, List.filter_cons, if_pos ha]
    · have hpb : p b = false := by
        cases hpb : p b
        · rfl
        · exact absurd (hkey b hpb) hab
      rw [insertB, if_neg hab, List.filter_cons, List.filter_cons, hpb]
      simp only [Bool.false_eq_true, if_false, ih]

theorem filter_insertB_neg {α : Type} (le : α → α → Bool) (p : α → Bool) {a : α}
    (ha : p a = false) (l : List α) :
    (insertB le a l).filter p = l.filter p := by
  induction l with
  | nil => simp [insertB, ha]
  | cons b t ih =>
    by_cases hab : le a b = true
    · rw [insertB, if_pos hab, List.filter_cons, ha, List.filter_cons]
      simp
    · rw [insertB, if_neg hab, List.filter_cons, List.filter_cons]
      cases hpb : p b <;> simp [ih]

/-- Stability of the sort: elements with a common key (mutually tied under
`le`) appear in the output exactly as in the input. -/
theorem filter_sortB {α : Type} (le : α → α → Bool) (p : α → Bool)
    (hkey : ∀ a b, p a = true → p b = true → le a b = true) (l : List α) :
    (sortB le l).filter p = l.filter p := by
  induction l with
  | nil => rfl
  | cons a t ih =>
    cases hpa : p a
    · rw [sortB, filter_insertB_neg le p hpa, ih, List.filter_cons]
      simp [hpa]
    · rw [sortB, filter_insertB_pos le p hpa (fun b hb => hkey a b hpa hb), ih,
        List.filter_cons]
      simp [hpa]

/-! ### Risk-level case analysis -/

theorem riskRank_riskLevelOf (f : Features) :
    riskRank (riskLevelOf f)
      = if highRisk f = true then 2 else if 3 ≤ riskPoints f then 1 else 0 := by
  unfold riskLevelOf riskRank
  by_cases h : highRisk f = true
  · simp [h]
  · by_cases h3 : 3 ≤ riskPoints f <;> simp [h, h3]

theorem riskRank_mono {f g : Features}
    (hH : highRisk f = true → highRisk g = true)
    (hP : highRisk g = false → riskPoints f ≤ riskPoints g) :
    riskRank (riskLevelOf f) ≤ riskRank (riskLevelOf g) := by
  rw [riskRank_riskLevelOf, riskRank_riskLevelOf]
  by_cases hg : highRisk g = true
  · rw [if_pos hg]
    split_ifs <;> omega
  · have hgf : highRisk g = false := by
      cases hgc : highRisk g
      · rfl
      · exact absurd hgc hg
    have hf : highRisk f = false := by
      cases hfc : highRisk f
      · rfl
      · exact absurd (hH hfc) hg
    have hpts := hP hgf
    rw [if_neg hg, if_neg (by simp [hf])]
    split_ifs <;> omega

theorem riskLevelOf_eq_cases (f : Features) :
    (riskLevelOf f = "High" ↔ highRisk f = true)
    ∧ (riskLevelOf f = "Moderate" ↔ (highRisk f = false ∧ 3 ≤ riskPoints f))
    ∧ (riskLevelOf f = "Low" ↔ (highRisk f = false ∧ riskPoints f < 3)) := by
  unfold riskLevelOf
  by_cases h : highRisk f = true
  · refine ⟨?_, ?_, ?_⟩ <;> simp [h]
  · have hf : highRisk f = false := by
      cases hfc : highRisk f
      · rfl
      · exact absurd hfc h
    by_cases h3 : 3 ≤ riskPoints f
    · refine ⟨?_, ?_, ?_⟩ <;> simp [h, hf, h3] <;> omega
    · refine ⟨?_, ?_, ?_⟩ <;> simp [h, hf, h3] <;> omega

/-! ### Lemmas about the scanners -/

theorem isPySpace_not_digit {c : Char} (h : isPySpace c = true) : c.isDigit = false := by
  simp only [isPySpace, Bool.or_eq_true, beq_iff_eq] at h
  rcases h with ((((rfl | rfl) | rfl) | rfl) | rfl) | rfl <;> rfl

theorem takeWhile_isDigit_nil {cs : List Char} (h : ∀ c ∈ cs, c.isDigit = false) :
    cs.takeWhile Char.isDigit = [] := by
  cases cs with
  | nil => rfl
  | cons c t =>
    rw [List.takeWhile_cons, h c (List.mem_cons_self c t)]
    rfl

theorem scanNum_none_of_no_digit {cs : List Char} (h : ∀ c ∈ cs, c.isDigit = false) :
    scanNum cs = none := by
  induction cs with
  | nil => rfl
  | cons c t ih =>
    have hc : c.isDigit = false := h c (List.mem_cons_self c t)
    have ht : ∀ x ∈ t, x.isDigit = false := fun x hx => h x (List.mem_cons_of_mem c hx)
    simp only [scanNum, hc, Bool.false_eq_true, if_false]
    by_cases hcm : c = '-'
    · rw [if_pos hcm]
      cases t with
      | nil => rfl
      | cons d t2 =>
        have hd : d.isDigit = false := ht d (List.mem_cons_self d t2)
        simp only [hd, Bool.false_eq_true, if_false]
        exact ih ht
    · rw [if_neg hcm]
      exact ih ht

theorem matchBpCore_none_of_no_digit {cs : List Char} (h : ∀ c ∈ cs, c.isDigit = false) :
    matchBpCore cs = none := by
  unfold matchBpCore
  rw [takeWhile_isDigit_nil h]
  simp

theorem matchBpCore_none_of_space {c : Char} (hc : isPySpace c = true) (l : List Char) :
    matchBpCore (c :: l) = none := by
  unfold matchBpCore
  rw [List.takeWhile_cons, isPySpace_not_digit hc]
  simp

theorem searchBp_ws_append {pre : List Char} (cs : List Char)
    (h : ∀ c ∈ pre, isPySpace c = true) : searchBp (pre ++ cs) = searchBp cs := by
  induction pre with
  | nil => rfl
  | cons c t ih =>
    have hc := h c (List.mem_cons_self c t)
    rw [List.cons_append, searchBp, matchBpCore_none_of_space hc]
    exact ih (fun x hx => h x (List.mem_cons_of_mem c hx))

theorem searchBp_of_match {cs : List Char} {r : Nat × Nat} (h : matchBpCore cs = some r) :
    searchBp cs = some r := by
  cases cs with
  | nil => simp [matchBpCore] at h
  | cons c t => rw [searchBp, h]

/-! ### No-rule case: flags and stabilization additions vanish -/

theorem flagsOf_nil {f : Features} (h : anyRuleFires f = false) : flagsOf f = [] := by
  simp only [anyRuleFires, Bool.or_eq_false_iff] at h
  obtain ⟨⟨⟨⟨⟨⟨⟨⟨⟨⟨⟨⟨h1, h2⟩, h3⟩, h4⟩, h5⟩, h6⟩, h7⟩, h8⟩, h9⟩, h10⟩, h11⟩, h12⟩, h13⟩ := h
  simp [flagsOf, h1, h2, h3, h4, h5, h6, h7, h8, h9, h10, h11, h12, h13]

theorem stabAdds_nil {f : Features} (h : anyRuleFires f = false) : stabAdds f = [] := by
  simp only [anyRuleFires, Bool.or_eq_false_iff] at h
  obtain ⟨⟨⟨⟨⟨⟨⟨⟨⟨⟨⟨⟨h1, h2⟩, h3⟩, h4⟩, h5⟩, h6⟩, h7⟩, h8⟩, h9⟩, h10⟩, h11⟩, h12⟩, h13⟩ := h
  simp [stabAdds, h1, h2, h3, h4, h5, h6, h7, h8, h9, h10, h11, h12, h13]

/-! ### The required-resource vocabulary and the medication namespace -/

theorem addsReq_vocab (f : Features) : ∀ r ∈ addsReq f, r ∈ requiredVocab := by
  unfold addsReq
  simp only [List.forall_mem_append]
  and_intros <;> (repeat' split) <;> decide

theorem addsDiag_vocab (f : Features) : ∀ r ∈ addsDiag f, r ∈ requiredVocab := by
  unfold addsDiag
  simp only [List.forall_mem_append]
  and_intros <;> (repeat' split) <;> decide

theorem required_resources_vocab (pd : PatientData) :
    ∀ r ∈ (inferRequiredResources pd).required_resources, r ∈ requiredVocab := by
  intro r hr
  have hr' : r ∈ addsReq (extractFeatures pd) ++ addsDiag (extractFeatures pd) :=
    List.mem_dedup.mp ((mem_sortB _ _ _).mp hr)
  rcases List.mem_append.mp hr' with h | h
  · exact addsReq_vocab _ r h
  · exact addsDiag_vocab _ r h

theorem vocab_ne_med {r : String} (hr : r ∈ requiredVocab) (t : String) :
    "med:" ++ t ≠ r := by
  intro h
  have hd : ("med:" ++ t).data.take 4 = r.data.take 4 := by rw [h]
  rw [String.data_append, List.take_append_of_le_length (by decide)] at hd
  fin_cases hr <;> exact absurd hd (by decide)

theorem mem_avail_iff_base {r : String} (hv : r ∈ requiredVocab)
    (i : Option Infrastructure) (d : Option Diagnostics) (k : Option Competencies)
    (m : List Medication) :
    r ∈ buildAvailableSet ⟨i, d, k, m⟩ ↔ r ∈ basePart i d k := by
  unfold buildAvailableSet
  rw [List.mem_append]
  constructor
  · rintro (h | h)
    · exact h
    · exfalso
      unfold medPart at h
      rcases List.mem_filterMap.mp h with ⟨med, _, he⟩
      by_cases hs : med.in_stock = true
      · rw [if_pos hs] at he
        exact vocab_ne_med hv (stripLower med.drug_name) (Option.some.inj he)
      · rw [if_neg hs] at he
        exact Option.noConfusion he
  · exact Or.inl

theorem missing_med_invariant (pd : PatientData) (i : Option Infrastructure)
    (d : Option Diagnostics) (k : Option Competencies) (m₁ m₂ : List Medication) :
    missingResources pd ⟨i, d, k, m₁⟩ = missingResources pd ⟨i, d, k, m₂⟩ := by
  unfold missingResources missingOf
  apply List.filter_congr
  intro r hr
  have hv := required_resources_vocab pd r hr
  rw [decide_eq_decide]
  exact not_congr ((mem_avail_iff_base hv i d k m₁).trans (mem_avail_iff_base hv i d k m₂).symm)

/-! ### Claim theorems -/

/-- C1 counterexample: the string "BP: 120/80" contains the 2-3-digit/slash
pattern (the reasoning-engine search finds it and returns (120, 80)), yet the
triage-engine extraction returns null because the pattern does not occur at
the start of the string — refuting the claim that extraction uses the first
occurrence anywhere. -/
theorem bp_first_occurrence_cex :
    parseBp "BP: 120/80" = none
    ∧ parseBpPair "BP: 120/80" = (some 120, some 80) := by
  constructor <;> decide

/-- C1 (amended): the reasoning engine's `_parse_bp` returns (systolic,
diastolic) from the first occurrence anywhere of the pattern, (null, null)
when there is none; the triage engine's `_parse_bp` is anchored: it returns
only the systolic value, and only when the pattern occurs at the start of the
string after optional leading whitespace — whenever it succeeds it agrees
with the systolic of the first occurrence anywhere, and whenever the pattern
occurs nowhere it returns null. -/
theorem parseBp_agrees_with_search (s : String) :
    (∀ a : Nat, parseBp s = some a → ∃ b : Nat, parseBpPair s = (some a, some b))
    ∧ (parseBpPair s = (none, none) → parseBp s = none) := by
  have part1 : ∀ a : Nat, parseBp s = some a → ∃ b : Nat, parseBpPair s = (some a, some b) := by
    intro a ha
    unfold parseBp at ha
    by_cases hse : s = ""
    · rw [if_pos hse] at ha
      exact Option.noConfusion ha
    · rw [if_neg hse] at ha
      rcases Option.map_eq_some'.mp ha with ⟨⟨a', b⟩, hm, hab⟩
      dsimp at hab
      subst hab
      refine ⟨b, ?_⟩
      have hws : searchBp s.data = some (a', b) := by
        rw [← List.takeWhile_append_dropWhile (p := isPySpace) (l := s.data),
          searchBp_ws_append _ (fun c hc => List.mem_takeWhile_imp hc)]
        exact searchBp_of_match hm
      unfold parseBpPair
      rw [hws]
  refine ⟨part1, ?_⟩
  intro h
  by_cases hn : parseBp s = none
  · exact hn
  · exfalso
    rcases Option.ne_none_iff_exists'.mp hn with ⟨a, ha⟩
    rcases part1 a ha with ⟨b, hb⟩
    rw [hb] at h
    exact Option.noConfusion (congrArg Prod.fst h)

/-- C1 witness: at "120/80" the anchored parser returns 120 and the search
parser agrees; at digit-free "xx" the search returns (null, null) and the
anchored parser null. -/
theorem parseBp_agrees_with_search_witness :
    (∃ b : Nat, parseBpPair "120/80" = (some 120, some b))
    ∧ parseBp "xx" = none :=
  ⟨(parseBp_agrees_with_search "120/80").1 120 (by decide),
   (parseBp_agrees_with_search "xx").2 (by decide)⟩

/-- C2 counterexample: on the all-empty patient case no rule fires, the
stabilization steps are exactly the fallback entry, but `flags` is the empty
list — there is no fallback sentinel in `flags`, refuting the claim that
`flags` is non-empty in that case. -/
theorem no_rule_flags_empty_cex :
    anyRuleFires (extractFeatures pdEmpty) = false
    ∧ (inferRequiredResources pdEmpty).flags = []
    ∧ (inferRequiredResources pdEmpty).stabilization_steps
        = ["Continue routine monitoring and symptomatic care"] := by
  refine ⟨by decide, by decide, by decide⟩

/-- C2 (amended): when no assessor rule triggers, `stabilization_steps` is
exactly the single fallback entry "Continue routine monitoring and
symptomatic care", and `flags` remains empty (no sentinel is added). -/
theorem no_rule_fallback (pd : PatientData)
    (h : anyRuleFires (extractFeatures pd) = false) :
    (inferRequiredResources pd).stabilization_steps
      = ["Continue routine monitoring and symptomatic care"]
    ∧ (inferRequiredResources pd).flags = [] := by
  have hf := flagsOf_nil h
  have hs := stabAdds_nil h
  constructor
  · show (assessFeatures (extractFeatures pd)).stabilization_steps = _
    unfold assessFeatures
    dsimp only
    rw [hf, hs]
    decide
  · exact hf

/-- C2 witness: the amended claim evaluated on the all-empty case. -/
theorem no_rule_fallback_witness :
    (inferRequiredResources pdEmpty).stabilization_steps
      = ["Continue routine monitoring and symptomatic care"]
    ∧ (inferRequiredResources pdEmpty).flags = [] :=
  no_rule_fallback pdEmpty (by decide)

theorem run_stab_eq (pd : PatientData) (c : Centre) :
    (runResourceAwareTriage pd c).stabilization_possible
      = stabilityVerdict (inferRequiredResources pd).required_resources
          (missingResources pd c) := by
  unfold runResourceAwareTriage buildResult
  rfl

theorem run_refer_eq (pd : PatientData) (c : Centre) :
    (runResourceAwareTriage pd c).refer_immediately
      = referVerdict (inferRequiredResources pd) (missingResources pd c) := by
  unfold runResourceAwareTriage buildResult
  rfl

theorem missingOf_nil_iff (req avail : List String) :
    missingOf req avail = [] ↔ ∀ r ∈ req, r ∈ avail := by
  unfold missingOf
  rw [List.filter_eq_nil_iff]
  simp

theorem missingOf_lt_iff (req avail : List String) :
    (missingOf req avail).length < req.length ↔ ∃ r ∈ req, r ∈ avail := by
  unfold missingOf
  rw [List.length_filter_lt_length_iff_exists]
  simp

theorem stability_cases (req avail : List String) :
    (stabilityVerdict req (missingOf req avail) = "Yes" ↔ (req = [] ∨ ∀ r ∈ req, r ∈ avail))
    ∧ (stabilityVerdict req (missingOf req avail) = "Partial"
        ↔ ((∃ r ∈ req, r ∈ avail) ∧ (∃ r ∈ req, r ∉ avail)))
    ∧ (stabilityVerdict req (missingOf req avail) = "No"
        ↔ (req ≠ [] ∧ ∀ r ∈ req, r ∉ avail)) := by
  have hnil := missingOf_nil_iff req avail
  have hlt := missingOf_lt_iff req avail
  unfold stabilityVerdict
  split_ifs with h1 h2 h3
  · refine ⟨?_, ?_, ?_⟩ <;> subst h1 <;> simp
  · have hcov := hnil.mp h2
    have hnoex : ¬ ∃ r ∈ req, r ∉ avail := by
      rintro ⟨r, hr, hna⟩
      exact hna (hcov r hr)
    refine ⟨?_, ?_, ?_⟩
    · exact iff_of_true rfl (Or.inr hcov)
    · exact iff_of_false (by decide) (fun hc => hnoex hc.2)
    · refine iff_of_false (by decide) ?_
      rintro ⟨hne, hall⟩
      rcases List.exists_mem_of_ne_nil req hne with ⟨r, hr⟩
      exact absurd (hcov r hr) (hall r hr)
  · have hexcov := hlt.mp h3
    have hexmiss : ∃ r ∈ req, r ∉ avail := by
      by_contra hno
      push_neg at hno
      exact h2 (hnil.mpr hno)
    refine ⟨?_, ?_, ?_⟩
    · refine iff_of_false (by decide) ?_
      rintro (rfl | hall)
      · exact h1 rfl
      · exact h2 (hnil.mpr hall)
    · exact iff_of_true rfl ⟨hexcov, hexmiss⟩
    · refine iff_of_false (by decide) ?_
      rintro ⟨_, hall⟩
      rcases hexcov with ⟨r, hr, hin⟩
      exact hall r hr hin
  · have hall : ∀ r ∈ req, r ∉ avail := by
      intro r hr hin
      exact h3 (hlt.mpr ⟨r, hr, hin⟩)
    refine ⟨?_, ?_, ?_⟩
    · refine iff_of_false (by decide) ?_
      rintro (rfl | hcov)
      · exact h1 rfl
      · exact h2 (hnil.mpr hcov)
    · refine iff_of_false (by decide) ?_
      rintro ⟨⟨r, hr, hin⟩, _⟩
      exact hall r hr hin
    · exact iff_of_true rfl ⟨h1, hall⟩

/-- C3: the stabilization verdict is "Yes" exactly when the required-resource
set is empty or fully covered by the facility capability set, "Partial"
exactly when some but not all required resources are covered, and "No"
exactly when the (non-empty) required set has no covered member. -/
theorem stability_verdict_spec (pd : PatientData) (c : Centre) :
    ((runResourceAwareTriage pd c).stabilization_possible = "Yes"
      ↔ ((inferRequiredResources pd).required_resources = []
          ∨ ∀ r ∈ (inferRequiredResources pd).required_resources, r ∈ buildAvailableSet c))
    ∧ ((runResourceAwareTriage pd c).stabilization_possible = "Partial"
      ↔ ((∃ r ∈ (inferRequiredResources pd).required_resources, r ∈ buildAvailableSet c)
          ∧ (∃ r ∈ (inferRequiredResources pd).required_resources, r ∉ buildAvailableSet c)))
    ∧ ((runResourceAwareTriage pd c).stabilization_possible = "No"
      ↔ ((inferRequiredResources pd).required_resources ≠ []
          ∧ ∀ r ∈ (inferRequiredResources pd).required_resources, r ∉ buildAvailableSet c)) := by
  rw [run_stab_eq]
  exact stability_cases (inferRequiredResources pd).required_resources (buildAvailableSet c)

/-- C3 witness: the empty case requires nothing, so stabilization is "Yes"
at the bare facility. -/
theorem stability_verdict_spec_witness :
    (runResourceAwareTriage pdEmpty centreNone).stabilization_possible = "Yes" :=
  (stability_verdict_spec pdEmpty centreNone).1.mpr (Or.inl (by decide))

theorem refer_cases (a : Assessment) (missing : List String) :
    (referVerdict a missing = "Yes"
      ↔ (a.risk_level = "High"
          ∧ (missing ≠ [] ∨ a.chest_pain_risk = true ∨ a.neurologic_danger = true)))
    ∧ (referVerdict a missing = "No"
      ↔ ¬(a.risk_level = "High"
          ∧ (missing ≠ [] ∨ a.chest_pain_risk = true ∨ a.neurologic_danger = true))) := by
  unfold referVerdict
  split_ifs with h
  · simp [h]
  · simp [h]

/-- C4: the immediate-referral verdict is "Yes" iff the risk level is High
and (the missing-resources list is non-empty, or the chest-pain critical
pattern holds, or the neurologic-danger critical pattern holds); in every
other case it is "No". -/
theorem refer_verdict_spec (pd : PatientData) (c : Centre) :
    ((runResourceAwareTriage pd c).refer_immediately = "Yes"
      ↔ ((inferRequiredResources pd).risk_level = "High"
          ∧ (missingResources pd c ≠ []
             ∨ (inferRequiredResources pd).chest_pain_risk = true
             ∨ (inferRequiredResources pd).neurologic_danger = true)))
    ∧ ((runResourceAwareTriage pd c).refer_immediately = "No"
      ↔ ¬((inferRequiredResources pd).risk_level = "High"
          ∧ (missingResources pd c ≠ []
             ∨ (inferRequiredResources pd).chest_pain_risk = true
             ∨ (inferRequiredResources pd).neurologic_danger = true))) := by
  rw [run_refer_eq]
  exact refer_cases (inferRequiredResources pd) (missingResources pd c)

/-- C4 witness: the empty case has Low risk, so referral is "No". -/
theorem refer_verdict_spec_witness :
    (runResourceAwareTriage pdEmpty centreNone).refer_immediately = "No" :=
  (refer_verdict_spec pdEmpty centreNone).2.mpr (by decide)

/-- C5: the final risk level is "High" exactly when a force-High rule fired
(hypotension, severe hypoxia, fever with hypotension, or the neurologic
pattern); otherwise "Moderate" exactly when the accumulated points reach 3;
otherwise "Low". -/
theorem risk_level_spec (pd : PatientData) :
    ((inferRequiredResources pd).risk_level = "High"
      ↔ ((extractFeatures pd).hypotension = true ∨ (extractFeatures pd).severeHypoxia = true
          ∨ ((extractFeatures pd).fever = true ∧ (extractFeatures pd).hypotension = true)
          ∨ (extractFeatures pd).neuroPattern = true))
    ∧ ((inferRequiredResources pd).risk_level = "Moderate"
      ↔ (¬((extractFeatures pd).hypotension = true ∨ (extractFeatures pd).severeHypoxia = true
            ∨ ((extractFeatures pd).fever = true ∧ (extractFeatures pd).hypotension = true)
            ∨ (extractFeatures pd).neuroPattern = true)
          ∧ 3 ≤ riskPoints (extractFeatures pd)))
    ∧ ((inferRequiredResources pd).risk_level = "Low"
      ↔ (¬((extractFeatures pd).hypotension = true ∨ (extractFeatures pd).severeHypoxia = true
            ∨ ((extractFeatures pd).fever = true ∧ (extractFeatures pd).hypotension = true)
            ∨ (extractFeatures pd).neuroPattern = true)
          ∧ riskPoints (extractFeatures pd) < 3)) := by
  have hbridge : highRisk (extractFeatures pd) = true
      ↔ ((extractFeatures pd).hypotension = true ∨ (extractFeatures pd).severeHypoxia = true
          ∨ ((extractFeatures pd).fever = true ∧ (extractFeatures pd).hypotension = true)
          ∨ (extractFeatures pd).neuroPattern = true) := by
    simp only [highRisk, Bool.or_eq_true, Bool.and_eq_true]
    tauto
  have hbridge' : highRisk (extractFeatures pd) = false
      ↔ ¬((extractFeatures pd).hypotension = true ∨ (extractFeatures pd).severeHypoxia = true
          ∨ ((extractFeatures pd).fever = true ∧ (extractFeatures pd).hypotension = true)
          ∨ (extractFeatures pd).neuroPattern = true) := by
    rw [← hbridge]
    cases highRisk (extractFeatures pd) <;> simp
  obtain ⟨cH, cM, cL⟩ := riskLevelOf_eq_cases (extractFeatures pd)
  exact ⟨cH.trans hbridge, cM.trans (and_congr hbridge' Iff.rfl),
    cL.trans (and_congr hbridge' Iff.rfl)⟩

/-- C5 witness: the empty case fires no force-High rule and accumulates no
points, so risk is "Low". -/
theorem risk_level_spec_witness : (inferRequiredResources pdEmpty).risk_level = "Low" :=
  (risk_level_spec pdEmpty).2.2.mpr ⟨by decide, by decide⟩

/-- C6: for every patient case, the ranked differential list has length at
most 5, its entries are in non-increasing score order, and entries with equal
scores keep the catalog declaration order (the filtered subsequence at each
score value is a sublist of the pre-sort catalog-ordered list). -/
theorem ranked_differentials_spec (pd : PatientData) :
    (rankTopDifferentials pd (inferRequiredResources pd)).length ≤ 5
    ∧ List.Pairwise (fun x y => y.score ≤ x.score) (rankTop pd (inferRequiredResources pd))
    ∧ ∀ s : Nat,
        ((rankTop pd (inferRequiredResources pd)).filter
            (fun c => decide (c.score = s))).Sublist
          ((rankedOf pd (inferRequiredResources pd)).filter
            (fun c => decide (c.score = s))) := by
  have htot : ∀ x y : Candidate, (candLe x y || candLe y x) = true := by
    intro x y
    unfold candLe
    rcases Nat.le_total y.score x.score with h | h <;> simp [h]
  have htrans : ∀ x y z : Candidate,
      candLe x y = true → candLe y z = true → candLe x z = true := by
    intro x y z hxy hyz
    unfold candLe at hxy hyz ⊢
    simp only [decide_eq_true_eq] at hxy hyz ⊢
    omega
  refine ⟨?_, ?_, ?_⟩
  · unfold rankTopDifferentials rankTop
    rw [List.length_map]
    exact List.length_take_le 5 _
  · have hp := pairwise_sortB htot htrans (rankedOf pd (inferRequiredResources pd))
    have hp5 := List.Pairwise.sublist
      (List.take_sublist 5 (sortB candLe (rankedOf pd (inferRequiredResources pd)))) hp
    exact hp5.imp (fun h => of_decide_eq_true h)
  · intro s
    have heq := filter_sortB candLe (fun c => decide (c.score = s))
      (fun a b ha hb => by
        unfold candLe
        simp only [decide_eq_true_eq] at ha hb ⊢
        omega) (rankedOf pd (inferRequiredResources pd))
    have h1 := List.Sublist.filter (fun c => decide (c.score = s))
      (List.take_sublist 5 (sortB candLe (rankedOf pd (inferRequiredResources pd))))
    rw [heq] at h1
    exact h1

/-- C7: feature extraction and the triage pipeline are total functions of
their inputs (no exceptions in the model); a numeric vital with no digit in
it parses to null (for both the number scanner and the blood-pressure
parser), and every threshold flag computed from a null numeric is false. -/
theorem null_vital_safety :
    (∀ s : String, (∀ c ∈ s.data, c.isDigit = false) → toFloat s = none ∧ parseBp s = none)
    ∧ ∀ pd : PatientData,
        (toFloat pd.temperature = none → (extractFeatures pd).fever = false)
        ∧ (parseBp pd.blood_pressure = none → (extractFeatures pd).hypotension = false)
        ∧ (toFloat pd.oxygen_saturation = none →
            (extractFeatures pd).severeHypoxia = false
            ∧ (extractFeatures pd).moderateHypoxia = false)
        ∧ (toFloat pd.pulse = none →
            (extractFeatures pd).markedTachycardia = false
            ∧ (extractFeatures pd).tachycardia = false)
        ∧ (toFloat pd.respiratory_rate = none → (extractFeatures pd).tachypnea = false) := by
  constructor
  · intro s h
    refine ⟨scanNum_none_of_no_digit h, ?_⟩
    unfold parseBp
    by_cases hse : s = ""
    · rw [if_pos hse]
    · rw [if_neg hse,
        matchBpCore_none_of_no_digit
          (fun c hc => h c ((List.dropWhile_sublist _).subset hc))]
      rfl
  · intro pd
    refine ⟨?_, ?_, ?_, ?_, ?_⟩ <;> intro h <;> simp [extractFeatures, h]

/-- C7 witness: on a case whose vitals are all non-numeric text, every
numeric parses to null and every threshold flag is false. -/
theorem null_vital_safety_witness :
    toFloat "pending" = none
    ∧ (extractFeatures pdNoVitals).fever = false
    ∧ (extractFeatures pdNoVitals).hypotension = false
    ∧ (extractFeatures pdNoVitals).severeHypoxia = false
    ∧ (extractFeatures pdNoVitals).markedTachycardia = false
    ∧ (extractFeatures pdNoVitals).tachypnea = false :=
  ⟨(null_vital_safety.1 "pending" (by decide)).1,
   (null_vital_safety.2 pdNoVitals).1 (by decide),
   (null_vital_safety.2 pdNoVitals).2.1 (by decide),
   ((null_vital_safety.2 pdNoVitals).2.2.1 (by decide)).1,
   ((null_vital_safety.2 pdNoVitals).2.2.2.1 (by decide)).1,
   (null_vital_safety.2 pdNoVitals).2.2.2.2 (by decide)⟩

/-- C9: whenever the assessment's critical-pattern summary reports
shock-or-hypoxia or neurologic danger, the risk level is "High" (each
condition feeding those booleans also sets the force-High flag). -/
theorem critical_pattern_high_risk (pd : PatientData)
    (h : (inferRequiredResources pd).shock_or_hypoxia = true
        ∨ (inferRequiredResources pd).neurologic_danger = true) :
    (inferRequiredResources pd).risk_level = "High" := by
  have hh : highRisk (extractFeatures pd) = true := by
    rcases h with h | h
    · have h' : ((extractFeatures pd).hypotension || (extractFeatures pd).severeHypoxia) = true := h
      simp only [highRisk, Bool.or_eq_true, Bool.and_eq_true] at h' ⊢
      tauto
    · have h' : (extractFeatures pd).neuroPattern = true := h
      simp only [highRisk, Bool.or_eq_true, Bool.and_eq_true]
      tauto
  exact (riskLevelOf_eq_cases (extractFeatures pd)).1.mpr hh

/-- C9 witness: a case with blood pressure "80/50" triggers the shock
pattern, and its risk level is "High". -/
theorem critical_pattern_high_risk_witness :
    (inferRequiredResources pdShock).risk_level = "High" :=
  critical_pattern_high_risk pdShock (Or.inl (by decide))

/-- C10: two facility profiles that differ only in their medications list
produce identical triage results: stocked medications enter the capability
set only under the "med:" marker, and no required resource carries it. -/
theorem medications_noninterference (pd : PatientData) (i : Option Infrastructure)
    (d : Option Diagnostics) (k : Option Competencies) (m₁ m₂ : List Medication) :
    runResourceAwareTriage pd ⟨i, d, k, m₁⟩ = runResourceAwareTriage pd ⟨i, d, k, m₂⟩ := by
  unfold runResourceAwareTriage
  rw [missing_med_invariant pd i d k m₁ m₂]

/-- C8: turning any single qualifying condition of the assessor from absent
to present, with every other feature fixed, never decreases the risk level
under the ordering Low < Moderate < High (`riskRank`). -/
theorem risk_monotonicity (f : Features) :
    riskRank ((assessFeatures f).risk_level)
        ≤ riskRank ((assessFeatures { f with hypotension := true }).risk_level)
    ∧ riskRank ((assessFeatures f).risk_level)
        ≤ riskRank ((assessFeatures { f with severeHypoxia := true }).risk_level)
    ∧ riskRank ((assessFeatures f).risk_level)
        ≤ riskRank ((assessFeatures { f with neuroPattern := true }).risk_level)
    ∧ riskRank ((assessFeatures f).risk_level)
        ≤ riskRank ((assessFeatures { f with fever := true }).risk_level)
    ∧ riskRank ((assessFeatures f).risk_level)
        ≤ riskRank ((assessFeatures { f with moderateHypoxia := true }).risk_level)
    ∧ riskRank ((assessFeatures f).risk_level)
        ≤ riskRank ((assessFeatures { f with markedTachycardia := true }).risk_level)
    ∧ riskRank ((assessFeatures f).risk_level)
        ≤ riskRank ((assessFeatures { f with tachycardia := true }).risk_level)
    ∧ riskRank ((assessFeatures f).risk_level)
        ≤ riskRank ((assessFeatures { f with tachypnea := true }).risk_level)
    ∧ riskRank ((assessFeatures f).risk_level)
        ≤ riskRank ((assessFeatures { f with respiratoryPattern := true }).risk_level)
    ∧ riskRank ((assessFeatures f).risk_level)
        ≤ riskRank ((assessFeatures { f with giPattern := true }).risk_level)
    ∧ riskRank ((assessFeatures f).risk_level)
        ≤ riskRank ((assessFeatures { f with chestPainPattern := true }).risk_level)
    ∧ riskRank ((assessFeatures f).risk_level)
        ≤ riskRank ((assessFeatures { f with malariaPattern := true }).risk_level) := by
  obtain ⟨fe, hy, sh, mo, mk, ta, tp, re, gi, ne, ch, ml⟩ := f
  simp only [assessFeatures]
  refine ⟨?_, ?_, ?_, ?_, ?_, ?_, ?_, ?_, ?_, ?_, ?_, ?_⟩
  · -- hypotension
    apply riskRank_mono
    · intro _
      simp [highRisk]
    · intro hg
      simp [highRisk] at hg
  · -- severeHypoxia
    apply riskRank_mono
    · intro _
      simp [highRisk]
    · intro hg
      simp [highRisk] at hg
  · -- neuroPattern
    apply riskRank_mono
    · intro _
      simp [highRisk]
    · intro hg
      simp [highRisk] at hg
  · -- fever
    apply riskRank_mono
    · intro h
      simp only [highRisk, Bool.or_eq_true, Bool.and_eq_true] at h ⊢
      tauto
    · intro hg
      simp only [highRisk, Bool.or_eq_false_iff, Bool.and_eq_false_iff] at hg
      obtain ⟨⟨⟨h1, h2⟩, _⟩, h3⟩ := hg
      subst h1
      subst h2
      subst h3
      simp only [riskPoints]
      cases fe <;> cases ta <;> cases tp <;> cases ml <;> simp <;> omega
  · -- moderateHypoxia
    apply riskRank_mono
    · intro h
      exact h
    · intro hg
      simp only [highRisk, Bool.or_eq_false_iff, Bool.and_eq_false_iff] at hg
      obtain ⟨⟨⟨h1, h2⟩, _⟩, h3⟩ := hg
      subst h1
      subst h2
      subst h3
      simp only [riskPoints]
      cases mo <;> simp <;> omega
  · -- markedTachycardia
    apply riskRank_mono
    · intro h
      exact h
    · intro hg
      simp only [riskPoints]
      cases mk <;> cases ta <;> simp <;> omega
  · -- tachycardia
    apply riskRank_mono
    · intro h
      exact h
    · intro hg
      simp only [highRisk, Bool.or_eq_false_iff, Bool.and_eq_false_iff] at hg
      obtain ⟨⟨⟨h1, h2⟩, _⟩, h3⟩ := hg
      subst h1
      subst h2
      subst h3
      simp only [riskPoints]
      cases fe <;> cases mk <;> cases ta <;> cases tp <;> simp <;> omega
  · -- tachypnea
    apply riskRank_mono
    · intro h
      exact h
    · intro hg
      simp only [highRisk, Bool.or_eq_false_iff, Bool.and_eq_false_iff] at hg
      obtain ⟨⟨⟨h1, h2⟩, _⟩, h3⟩ := hg
      subst h1
      subst h2
      subst h3
      simp only [riskPoints]
      cases fe <;> cases ta <;> cases tp <;> simp <;> omega
  · -- respiratoryPattern
    apply riskRank_mono
    · intro h
      exact h
    · intro hg
      simp only [riskPoints]
      cases re <;> simp <;> omega
  · -- giPattern
    apply riskRank_mono
    · intro h
      exact h
    · intro hg
      simp only [riskPoints]
      cases gi <;> simp <;> omega
  · -- chestPainPattern
    apply riskRank_mono
    · intro h
      exact h
    · intro hg
      simp only [riskPoints]
      cases ch <;> simp <;> omega
  · -- malariaPattern
    apply riskRank_mono
    · intro h
      exact h
    · intro hg
      simp only [riskPoints]
      cases ml <;> cases fe <;> simp <;> omega
